import Mathlib

/-!
Verification of the lead-generation search orchestrator of the `leeds`
repository (files `src/services/geminiService.ts`, `src/unnamed/part_002`,
`src/App.tsx`, `src/types.ts`).

The TypeScript is shallowly embedded: strings are Lean `String` / `List Char`,
JSON values are an inductive `JsVal` (numbers restricted to integers, which is
enough for every property below), JavaScript `undefined` is `Option.none`,
thrown errors are `Except.error`, and the nondeterministic outcome of each
network call is an explicit environment `Nat → FetchOutcome` giving the outcome
of the n-th call of an invocation.
-/

namespace Leeds

/-! Character-list utilities (model of JS string primitives) -/

/-- Test whether `hay` begins with `pat`: the anchored test a regex or
`String.includes` scan performs at one position. -/
def listStartsWith : List Char → List Char → Bool
  | _, [] => true
  | [], _ :: _ => false
  | a :: as, b :: bs => a == b && listStartsWith as bs

/-- Test whether `pat` occurs contiguously inside `hay`: models JavaScript
`String.prototype.includes`. -/
def listContainsSub : List Char → List Char → Bool
  | [], pat => pat.isEmpty
  | a :: as, pat => listStartsWith (a :: as) pat || listContainsSub as pat

/-- Model of JavaScript `hay.includes(pat)`. -/
def strContains (hay pat : String) : Bool :=
  listContainsSub hay.data pat.data

/-- One step of a global, non-overlapping replace: fuel-driven scan of the
original string; replacement text is not rescanned (as in JS `replace` with a
global literal pattern). -/
def replaceGo (pat rep : List Char) : Nat → List Char → List Char
  | _, [] => []
  | 0, hay => hay
  | fuel + 1, c :: rest =>
    if listStartsWith (c :: rest) pat then
      rep ++ replaceGo pat rep fuel ((c :: rest).drop pat.length)
    else
      c :: replaceGo pat rep fuel rest

/-- Model of JavaScript `hay.replace(/pat/g, rep)` for a literal pattern. -/
def replaceAll (pat rep hay : List Char) : List Char :=
  replaceGo pat rep hay.length hay

/-- ASCII whitespace, the characters JS `trim` removes that occur here. -/
def isWsChar (c : Char) : Bool :=
  c == ' ' || c == '\n' || c == '\t' || c == '\r'

/-- Model of JavaScript `String.prototype.trim`. -/
def trimChars (cs : List Char) : List Char :=
  ((cs.dropWhile isWsChar).reverse.dropWhile isWsChar).reverse

/-! JSON values and a JSON parser (model of `JSON.parse`)

Numbers are modelled as integers; every string handled by the claims is
integer-valued.  A JS `undefined` (absent object property) is represented by
`Option.none` at use sites, never by a `JsVal`. -/

inductive JsVal where
  | jnull : JsVal
  | jbool : Bool → JsVal
  | jnum : Int → JsVal
  | jstr : String → JsVal
  | jarr : List JsVal → JsVal
  | jobj : List (String × JsVal) → JsVal

/-- Drop leading JSON whitespace. -/
def skipWs : List Char → List Char
  | c :: cs => if isWsChar c then skipWs cs else c :: cs
  | [] => []

/-- Parse the body of a JSON string literal after the opening quote, returning
the string contents and the remaining input (after the closing quote). -/
def parseStrBody : List Char → Option (List Char × List Char)
  | [] => none
  | '"' :: rest => some ([], rest)
  | '\\' :: c :: rest =>
    (parseStrBody rest).map fun p =>
      let ch := if c == 'n' then '\n' else if c == 't' then '\t'
        else if c == 'r' then '\r' else c
      (ch :: p.1, p.2)
  | '\\' :: [] => none
  | c :: rest => (parseStrBody rest).map fun p => (c :: p.1, p.2)

/-- Parse a non-empty run of decimal digits. -/
def parseDigits : List Char → Option (Nat × List Char)
  | c :: rest =>
    if c.isDigit then
      match parseDigits rest with
      | some (n, r) =>
        some (((c.toNat - '0'.toNat) * 10 ^ (rest.length - r.length) + n), r)
      | none => some (c.toNat - '0'.toNat, rest)
    else none
  | [] => none

mutual

/-- Fuel-driven recursive-descent parser for one JSON value. -/
def parseVal : Nat → List Char → Option (JsVal × List Char)
  | 0, _ => none
  | fuel + 1, cs =>
    match skipWs cs with
    | 'n' :: 'u' :: 'l' :: 'l' :: rest => some (.jnull, rest)
    | 't' :: 'r' :: 'u' :: 'e' :: rest => some (.jbool true, rest)
    | 'f' :: 'a' :: 'l' :: 's' :: 'e' :: rest => some (.jbool false, rest)
    | '"' :: rest => (parseStrBody rest).map fun p => (.jstr ⟨p.1⟩, p.2)
    | '[' :: rest =>
      (match skipWs rest with
       | ']' :: r2 => some (.jarr [], r2)
       | other => (parseItems fuel other).map fun p => (.jarr p.1, p.2))
    | '{' :: rest =>
      (match skipWs rest with
       | '}' :: r2 => some (.jobj [], r2)
       | other => (parseFields fuel other).map fun p => (.jobj p.1, p.2))
    | '-' :: rest =>
      (parseDigits rest).map fun p => (.jnum (-(p.1 : Int)), p.2)
    | c :: rest =>
      if c.isDigit then
        (parseDigits (c :: rest)).map fun p => (.jnum (p.1 : Int), p.2)
      else none
    | [] => none

/-- Parse the comma-separated items of a non-empty JSON array, consuming the
closing bracket. -/
def parseItems : Nat → List Char → Option (List JsVal × List Char)
  | 0, _ => none
  | fuel + 1, cs =>
    match parseVal fuel cs with
    | none => none
    | some (v, r1) =>
      match skipWs r1 with
      | ',' :: r2 => (parseItems fuel r2).map fun p => (v :: p.1, p.2)
      | ']' :: r2 => some ([v], r2)
      | _ => none

/-- Parse the comma-separated fields of a non-empty JSON object, consuming the
closing brace. -/
def parseFields : Nat → List Char → Option (List (String × JsVal) × List Char)
  | 0, _ => none
  | fuel + 1, cs =>
    match skipWs cs with
    | '"' :: rest =>
      match parseStrBody rest with
      | none => none
      | some (key, r1) =>
        match skipWs r1 with
        | ':' :: r2 =>
          (match parseVal fuel r2 with
           | none => none
           | some (v, r3) =>
             match skipWs r3 with
             | ',' :: r4 => (parseFields fuel r4).map fun p =>
                 ((⟨key⟩, v) :: p.1, p.2)
             | '}' :: r4 => some ([(⟨key⟩, v)], r4)
             | _ => none)
        | _ => none
    | _ => none

end

/-- Model of `JSON.parse`: parses one JSON value and requires only whitespace
to remain; `none` models a thrown `SyntaxError`. -/
def jparse (s : String) : Option JsVal :=
  match parseVal (2 * s.length + 2) s.data with
  | some (v, rest) => if (skipWs rest).isEmpty then some v else none
  | none => none

/-! Response-text extraction (`src/services/geminiService.ts` 4-7, 91-108)

`cleanJsonString` is the live helper
`str.replace(/```json/g, '').replace(/```/g, '').trim()`. -/

def cleanJsonString (s : String) : String :=
  ⟨trimChars (replaceAll "```".data [] (replaceAll "```json".data [] s.data))⟩

/-- Suffix of `cs` starting at its first `[`, if any. -/
def fromFirstLB : List Char → Option (List Char)
  | [] => none
  | '[' :: r => some ('[' :: r)
  | _ :: r => fromFirstLB r

/-- Everything before the first `]` of a reversed list: helper giving the part
of the original that ends at its last `]`. -/
def fromFirstRB : List Char → Option (List Char)
  | [] => none
  | ']' :: r => some (']' :: r)
  | _ :: r => fromFirstRB r

/-- Model of `cleanedText.match(/\[.*\]/s)`: the (greedy) substring from the
first `[` to the last `]` occurring after it, `none` when the regex does not
match. -/
def bracketSlice (s : String) : Option String :=
  match fromFirstLB s.data with
  | none => none
  | some tail =>
    match fromFirstRB tail.reverse with
    | none => none
    | some kept => some ⟨kept.reverse⟩

/-- The parsed-array extraction of `fetchFromGemini`
(`src/services/geminiService.ts` 91-108 together with the `Array.isArray`
guard of line 110): parse the cleaned text; on parse failure parse the
`[...]` match; any remaining failure, and any non-array parse, yields `[]`. -/
def extractArray (s : String) : List JsVal :=
  let cleaned := cleanJsonString s
  match jparse cleaned with
  | some (.jarr xs) => xs
  | some _ => []
  | none =>
    match bracketSlice cleaned with
    | none => []
    | some sub =>
      match jparse sub with
      | some (.jarr xs) => xs
      | _ => []

/-! Mapping one parsed element to a lead
(`src/services/geminiService.ts` 110-124)

JS property access `item.f` on a parsed value is `getField item "f"`, with
`none` for `undefined`.  `a || b` and `c ? x : y` use JS truthiness. -/

/-- JS property access on a parsed JSON value (`undefined` = `none`;
properties of non-objects used here are all `undefined`). -/
def getField : JsVal → String → Option JsVal
  | .jobj fs, key => fs.lookup key
  | _, _ => none

/-- JavaScript truthiness of a JSON value. -/
def jsTruthy : JsVal → Bool
  | .jnull => false
  | .jbool b => b
  | .jnum n => n != 0
  | .jstr s => s ≠ ""
  | .jarr _ => true
  | .jobj _ => true

/-- JavaScript truthiness of a possibly-`undefined` value. -/
def jsTruthyOpt : Option JsVal → Bool
  | some v => jsTruthy v
  | none => false

/-- JavaScript `a || b` with `a` possibly `undefined` and `b` a value. -/
def jsOrDefault (a : Option JsVal) (b : JsVal) : JsVal :=
  match a with
  | some v => if jsTruthy v then v else b
  | none => b

/-- The record built from one parsed array element, fields exactly as in
`src/services/geminiService.ts` lines 111-123.  `dateNow` is the ambient
`Date.now()` value and `index` the element's position. -/
structure MappedLead where
  id : String
  name : JsVal
  address : JsVal
  rating : Option JsVal
  website : Option JsVal
  phone : Option JsVal
  email : Option JsVal
  instagram : Option JsVal
  status : String
  googleMapsUri : Option JsVal
  websiteQuality : JsVal

/-- One element of `parsedData.map((item, index) => (..))`. -/
def mapItem (item : JsVal) (dateNow index : Nat) : MappedLead where
  id := "lead-" ++ toString dateNow ++ "-" ++ toString index
  name := jsOrDefault (getField item "name") (.jstr "Unknown Business")
  address := jsOrDefault (getField item "address") (.jstr "No address found")
  rating := getField item "rating"
  website := getField item "website"
  phone := getField item "phone"
  email := getField item "email"
  instagram := getField item "instagram"
  status := "enriched"
  googleMapsUri := getField item "googleMapsUri"
  websiteQuality :=
    jsOrDefault (getField item "websiteQuality")
      (if jsTruthyOpt (getField item "website") then .jstr "Good" else .jstr "Bad")

/-! The caller-visible lead type (`src/types.ts` `BusinessLead`) -/

structure BusinessLead where
  id : String
  name : String
  address : String
  rating : Option Int := none
  userRatingCount : Option Int := none
  website : Option String := none
  phone : Option String := none
  email : Option String := none
  instagram : Option String := none
  status : String := "enriched"
  googleMapsUri : Option String := none
  websiteQuality : Option String := none
deriving DecidableEq

/-! The retry ladders

A thrown JavaScript error is modelled by its `status` / `code` properties
(absent = `none`) and its `message`; `estr` is its `toString()` form.  The
outcome of the n-th `fetchFromGemini` call of one invocation is given by an
environment `env : Nat → FetchOutcome`; the orchestrator records the batch
sizes it issued and the delays it awaited. -/

structure JsError where
  status : Option Nat := none
  code : Option Nat := none
  message : String
deriving DecidableEq

/-- Model of `error.toString()` for an `Error` object. -/
def estr (e : JsError) : String := "Error: " ++ e.message

/-- Outcome of one `fetchFromGemini` call: resolved leads or a thrown error. -/
inductive FetchOutcome where
  | ok : List BusinessLead → FetchOutcome
  | err : JsError → FetchOutcome

/-- Result of one `searchBusinesses` invocation, with its observable trace:
`attempts` lists the batch sizes issued in order, `waits` the awaited delays
in milliseconds. -/
structure SearchTrace where
  result : Except JsError (List BusinessLead)
  attempts : List Nat
  waits : List Nat

/-- The `WAIT_TIME_MS` constant shared by both service variants. -/
def WAIT_TIME_MS : Nat := 2000

/-- The error-classification of the live ladder
(`src/services/geminiService.ts` 143, 152):
`error.status === 500 || error.code === 500 ||
error.message?.includes("Internal error")`. -/
def isInternalError (e : JsError) : Bool :=
  e.status == some 500 || e.code == some 500 ||
    strContains e.message "Internal error"

/-- The live orchestrator (`src/services/geminiService.ts` 129-162):
try 40; on an internal-class error wait and try 20; on another
internal-class error wait and try 10; any other thrown error is rethrown
unchanged.  A resolved (even empty) call returns immediately. -/
def searchBusinesses (env : Nat → FetchOutcome) : SearchTrace :=
  match env 0 with
  | .ok leads => ⟨.ok leads, [40], []⟩
  | .err e =>
    if isInternalError e then
      match env 1 with
      | .ok leads => ⟨.ok leads, [40, 20], [WAIT_TIME_MS]⟩
      | .err e2 =>
        if isInternalError e2 then
          match env 2 with
          | .ok leads => ⟨.ok leads, [40, 20, 10], [WAIT_TIME_MS, WAIT_TIME_MS]⟩
          | .err e3 => ⟨.error e3, [40, 20, 10], [WAIT_TIME_MS, WAIT_TIME_MS]⟩
        else ⟨.error e2, [40, 20], [WAIT_TIME_MS]⟩
    else ⟨.error e, [40], []⟩

/-- The fixed user-facing quota error of the `part_002` variant
(lines 276 and 293). -/
def quotaError : JsError :=
  { message := "Daily AI search quota exceeded. Please try again later." }

/-- Quota classification of the `part_002` variant (line 273):
`error.toString().includes('429') || error.toString().includes('quota')`. -/
def isQuotaErrorV2 (e : JsError) : Bool :=
  strContains (estr e) "429" || strContains (estr e) "quota"

/-- The error handler of the `part_002` variant's `searchBusinesses`
(lines 272-297): a quota-class error short-circuits; otherwise wait
`WAIT_TIME_MS` and retry once with `Math.max(5, Math.floor(target / 2))`;
a second thrown error containing `429` is remapped to `quotaError`, any
other is rethrown. -/
def handleFirstFailureV2 (env : Nat → FetchOutcome) (target : Nat)
    (e : JsError) : SearchTrace :=
  if isQuotaErrorV2 e then ⟨.error quotaError, [target], []⟩
  else
    let fallback := max 5 (target / 2)
    match env 1 with
    | .ok leads => ⟨.ok leads, [target, fallback], [WAIT_TIME_MS]⟩
    | .err e2 =>
      if strContains (estr e2) "429" then
        ⟨.error quotaError, [target, fallback], [WAIT_TIME_MS]⟩
      else
        ⟨.error e2, [target, fallback], [WAIT_TIME_MS]⟩

/-- Orchestrator of the `part_002` variant's orchestrator (`src/unnamed/part_002` 255-297):
a first attempt resolving to a non-empty list returns; an empty resolution
throws `"No results found in first attempt"` into the same handler as a
thrown error. -/
def searchBusinessesV2 (env : Nat → FetchOutcome) (target : Nat) :
    SearchTrace :=
  match env 0 with
  | .ok leads =>
    if leads.length > 0 then ⟨.ok leads, [target], []⟩
    else handleFirstFailureV2 env target
      { message := "No results found in first attempt" }
  | .err e => handleFirstFailureV2 env target e

/-! The caller (`src/App.tsx` `runWorkflow`, lines 127-135) -/

/-- Functional update passed to `setLeads`: drop new records whose `name` is
already among the held records, then append. -/
def appendLeads (prev results : List BusinessLead) : List BusinessLead :=
  let existingIds := prev.map (·.name)
  let uniqueNew := results.filter fun r => !(existingIds.contains r.name)
  prev ++ uniqueNew

/-- Visible state written by the success path of `runWorkflow`. -/
structure RunUpdate where
  leads : List BusinessLead
  lastAddedCount : Nat
deriving DecidableEq

/-- Lines 127-135: when the batch is non-empty the held list becomes
`appendLeads prev results` and `lastAddedCount` becomes `results.length`;
an empty batch leaves both unchanged (`lastAddedCount` was reset to 0). -/
def applyResults (prev results : List BusinessLead) : RunUpdate :=
  if results.length > 0 then
    ⟨appendLeads prev results, results.length⟩
  else
    ⟨prev, 0⟩

/-! The exclusion list embedded in the live prompt
(`src/services/geminiService.ts` 24-29) -/

/-- Model of `excludeNames.slice(-n)` for `n > 0`: the suffix of the most
recent `min n (length)` entries. -/
def sliceLast (l : List String) (n : Nat) : List String :=
  l.drop (l.length - n)

/-- Line 25: `const shortExclusionList = excludeNames.slice(-30)`, the list
embedded (JSON-stringified) into the live prompt's exclusion context. -/
def fetchPromptExclusions (excludeNames : List String) : List String :=
  sliceLast excludeNames 30

/-! Concrete inputs used by the witnesses and counterexamples below -/

/-- Array projection of a parsed JSON value, the shape `Array.isArray`
accepts. -/
def asArr : JsVal → Option (List JsVal)
  | .jarr xs => some xs
  | _ => none

/-- A minimal caller-side lead record. -/
def mkLead (leadName : String) : BusinessLead where
  id := "id-" ++ leadName
  name := leadName
  address := "some address"

/-- Environment whose every call rejects with a bare 429-mentioning error. -/
def env429 : Nat → FetchOutcome := fun _ => .err { message := "got 429" }

/-- Environment whose every call rejects with an error mentioning both the
internal-error keyword and 429. -/
def envInternal429 : Nat → FetchOutcome :=
  fun _ => .err { message := "Internal error after 429" }

/-- Environment whose every call rejects with a rate-limit style message. -/
def envRateLimited : Nat → FetchOutcome :=
  fun _ => .err { message := "429 rate limited" }

/-- Environment whose every call resolves with zero records. -/
def envEmptyConst : Nat → FetchOutcome := fun _ => .ok []

/-- Environment whose first call resolves empty and whose retry resolves with
one record. -/
def envEmptyThenOne : Nat → FetchOutcome :=
  fun n => if n == 0 then .ok [] else .ok [mkLead "Witness Cafe"]

/-- Environment whose every call rejects with a 500 internal error. -/
def envInternalConst : Nat → FetchOutcome :=
  fun _ => .err { status := some 500, message := "Internal error" }

/-- Environment whose every call rejects with an unclassified error. -/
def envBoom : Nat → FetchOutcome := fun _ => .err { message := "boom" }

/-- The concrete element of the C8 witness. -/
def c8Item : JsVal :=
  .jobj [("name", .jstr "Acme"), ("website", .jstr "https://acme.example")]

/-- The concrete element of the C8 counterexample. -/
def c8CexItem : JsVal := .jobj [("website", .jstr "")]

/-! Shared helper lemmas -/

theorem listContainsSub_append_left (pre hay pat : List Char)
    (h : listContainsSub hay pat = true) :
    listContainsSub (pre ++ hay) pat = true := by
  induction pre with
  | nil => simpa using h
  | cons c cs ih => simp [listContainsSub, ih]

theorem strContains_append_left (pre hay pat : String)
    (h : strContains hay pat = true) :
    strContains (pre ++ hay) pat = true := by
  have hdata : (pre ++ hay).data = pre.data ++ hay.data := rfl
  unfold strContains at h ⊢
  rw [hdata]
  exact listContainsSub_append_left pre.data hay.data pat.data h

/-! Claim theorems -/

/-- C4 (amended): whenever the fence-stripped, trimmed response text itself
parses as a JSON array `A`, or it is not valid JSON but its substring from the
first `[` to the last `]` parses as a JSON array `A`, the extraction step
yields exactly `A`. -/
theorem c4_extraction_exact (s : String) (A : List JsVal)
    (h : jparse (cleanJsonString s) = some (.jarr A) ∨
      (jparse (cleanJsonString s) = none ∧
        ∃ sub, bracketSlice (cleanJsonString s) = some sub ∧
          jparse sub = some (.jarr A))) :
    extractArray s = A := by
  rcases h with h | ⟨h1, sub, h2, h3⟩
  · simp [extractArray, h]
  · simp [extractArray, h1, h2, h3]

/-- Witness for C4: a response with leading prose and no stray brackets
extracts to the embedded array. -/
theorem c4_extraction_exact_witness :
    extractArray "Sure! [1, 2]" = [.jnum 1, .jnum 2] :=
  c4_extraction_exact "Sure! [1, 2]" [.jnum 1, .jnum 2]
    (Or.inr ⟨rfl, "[1, 2]", rfl, rfl⟩)

/-- C4 counterexample: the response text contains the syntactically valid
JSON array `[1, 2]` inside prose, yet because the prose itself contains a
bracket the extraction step yields `[]`, not that array's parsed value. -/
theorem c4_counterexample :
    strContains "Note [a]: [1, 2]" "[1, 2]" = true ∧
    jparse "[1, 2]" = some (.jarr [.jnum 1, .jnum 2]) ∧
    extractArray "Note [a]: [1, 2]" = [] :=
  ⟨rfl, rfl, rfl⟩

/-- C5: when neither the cleaned response text nor its first-to-last-bracket
substring parses as a JSON array, extraction returns the empty list (and,
being a total function, never throws). -/
theorem c5_no_array_yields_empty (s : String)
    (h1 : (jparse (cleanJsonString s)).bind asArr = none)
    (h2 : (bracketSlice (cleanJsonString s)).bind
        (fun sub => (jparse sub).bind asArr) = none) :
    extractArray s = [] := by
  cases hp : jparse (cleanJsonString s) with
  | some v => cases v <;> simp_all [extractArray, asArr]
  | none =>
    cases hb : bracketSlice (cleanJsonString s) with
    | none => simp_all [extractArray]
    | some sub =>
      cases hps : jparse sub with
      | none => simp_all [extractArray]
      | some v => cases v <;> simp_all [extractArray, asArr]

/-- Witness for C5: a malformed bracketed response extracts to the empty
list. -/
theorem c5_no_array_yields_empty_witness : extractArray "[*]" = [] :=
  c5_no_array_yields_empty "[*]" rfl rfl

/-- C6: the exclusion list embedded in the live prompt is the suffix of the
caller-supplied list holding its (at most) 30 most recent entries: its length
is the minimum of 30 and the full length, it is a suffix of the full list, and
re-attaching the dropped older entries recovers the full list, so entries
beyond the bound are exactly the dropped ones. -/
theorem c6_prompt_exclusions_recent_suffix (excludeNames : List String) :
    (fetchPromptExclusions excludeNames).length = min 30 excludeNames.length ∧
    (fetchPromptExclusions excludeNames).IsSuffix excludeNames ∧
    excludeNames.take (excludeNames.length - 30) ++
      fetchPromptExclusions excludeNames = excludeNames := by
  refine ⟨?_, ?_, ?_⟩
  · simp only [fetchPromptExclusions, sliceLast, List.length_drop]
    omega
  · exact ⟨excludeNames.take (excludeNames.length - 30),
      List.take_append_drop _ _⟩
  · exact List.take_append_drop _ _

/-- Witness for C6: a 31-entry exclusion list is embedded as its 30 most
recent entries. -/
theorem c6_prompt_exclusions_recent_suffix_witness :
    (fetchPromptExclusions (List.replicate 31 "Old Cafe")).length = 30 :=
  ((c6_prompt_exclusions_recent_suffix (List.replicate 31 "Old Cafe")).1).trans
    (by decide)

/-- C7: a record appended to the visible list by `runWorkflow` never shares a
name with a previously held record: everything past the preserved prefix of
the update has a name absent from the previous names. -/
theorem c7_append_dedup_by_name (prev results : List BusinessLead) :
    ∀ r ∈ (appendLeads prev results).drop prev.length,
      r.name ∉ prev.map (·.name) := by
  intro r hr
  simp only [appendLeads, List.drop_left, List.mem_filter] at hr
  simpa using hr.2

/-- Witness for C7: a concrete appended record's name is absent from the
previously held names. -/
theorem c7_append_dedup_by_name_witness :
    (mkLead "Cafe B").name ∉ ([mkLead "Cafe A"].map (·.name)) :=
  c7_append_dedup_by_name [mkLead "Cafe A"] [mkLead "Cafe A", mkLead "Cafe B"]
    (mkLead "Cafe B") (by decide)

/-- C8 (amended): for an element with no explicit `websiteQuality`, the
derived quality is "Good" exactly when the `website` field is truthy
(present and neither null nor the empty string, for the wire schema's
`string|null`) and "Bad" otherwise. -/
theorem c8_quality_by_truthiness (item : JsVal) (dateNow index : Nat)
    (hq : getField item "websiteQuality" = none) :
    (mapItem item dateNow index).websiteQuality =
      (if jsTruthyOpt (getField item "website") then JsVal.jstr "Good"
       else JsVal.jstr "Bad") := by
  simp [mapItem, jsOrDefault, hq]

/-- Witness for C8: a non-empty website with no explicit quality derives
"Good". -/
theorem c8_quality_by_truthiness_witness :
    (mapItem c8Item 0 0).websiteQuality = .jstr "Good" :=
  (c8_quality_by_truthiness c8Item 0 0 rfl).trans rfl

/-- C8 counterexample: an element whose `website` is the non-null empty
string and which has no explicit `websiteQuality` derives "Bad", not the
"Good" the claim requires for every non-null website. -/
theorem c8_counterexample :
    getField c8CexItem "website" = some (.jstr "") ∧
    getField c8CexItem "website" ≠ some JsVal.jnull ∧
    getField c8CexItem "websiteQuality" = none ∧
    (mapItem c8CexItem 0 0).websiteQuality = .jstr "Bad" :=
  ⟨rfl, fun h => JsVal.noConfusion (Option.some.inj h), rfl, rfl⟩

/-- C9: an element missing `name` produces the placeholder name
"Unknown Business", and one missing `address` produces the placeholder
address "No address found". -/
theorem c9_missing_field_placeholders (item : JsVal) (dateNow index : Nat) :
    (getField item "name" = none →
      (mapItem item dateNow index).name = .jstr "Unknown Business") ∧
    (getField item "address" = none →
      (mapItem item dateNow index).address = .jstr "No address found") := by
  constructor <;> intro h <;> simp [mapItem, jsOrDefault, h]

/-- Witness for C9: an element carrying only a rating gets both
placeholders. -/
theorem c9_missing_field_placeholders_witness :
    (mapItem (.jobj [("rating", .jnum 5)]) 3 1).name
      = .jstr "Unknown Business" ∧
    (mapItem (.jobj [("rating", .jnum 5)]) 3 1).address
      = .jstr "No address found" :=
  ⟨(c9_missing_field_placeholders (.jobj [("rating", .jnum 5)]) 3 1).1 rfl,
   (c9_missing_field_placeholders (.jobj [("rating", .jnum 5)]) 3 1).2 rfl⟩

/-- C10: for a non-empty returned batch the reported success count is the
full batch length, not the number of records surviving name de-duplication,
and it can strictly exceed the number of records actually added. -/
theorem c10_reported_count_full_batch :
    (∀ prev results : List BusinessLead, results ≠ [] →
      (applyResults prev results).lastAddedCount = results.length) ∧
    (∃ prev results : List BusinessLead, results ≠ [] ∧
      (applyResults prev results).lastAddedCount >
        (applyResults prev results).leads.length - prev.length) := by
  constructor
  · intro prev results h
    have hpos : results.length > 0 := List.length_pos.mpr h
    simp [applyResults, hpos]
  · exact ⟨[mkLead "Dup"], [mkLead "Dup"], by simp, by decide⟩

/-- Witness for C10: a singleton batch reports a count of 1. -/
theorem c10_reported_count_full_batch_witness :
    (applyResults [] [mkLead "Solo"]).lastAddedCount = 1 :=
  (c10_reported_count_full_batch.1 [] [mkLead "Solo"] (by simp)).trans rfl

/-- Helper for the `part_002` handler: it never issues more than one fetch of
its own, so an invocation never exceeds two attempts. -/
theorem handle_attempts_len (env : Nat → FetchOutcome) (target : Nat)
    (e : JsError) :
    (handleFirstFailureV2 env target e).attempts.length ≤ 2 := by
  unfold handleFirstFailureV2
  split
  · simp
  · cases he : env 1 with
    | ok l => simp [he]
    | err e2 => simp only [he]; split <;> simp

/-- Helper for the `part_002` handler: behaviour when the retry branch is
taken (the first error is not quota-class). -/
theorem handle_not_quota (env : Nat → FetchOutcome) (target : Nat)
    (e : JsError) (hq : isQuotaErrorV2 e = false) :
    (handleFirstFailureV2 env target e).attempts
        = [target, max 5 (target / 2)] ∧
    (handleFirstFailureV2 env target e).waits = [WAIT_TIME_MS] ∧
    ((∃ l, env 1 = .ok l ∧
        (handleFirstFailureV2 env target e).result = .ok l) ∨
     (∃ e2, env 1 = .err e2 ∧
        ((handleFirstFailureV2 env target e).result = .error e2 ∨
         (handleFirstFailureV2 env target e).result = .error quotaError))) := by
  unfold handleFirstFailureV2
  rw [hq]
  cases he : env 1 with
  | ok l => refine ⟨?_, ?_, Or.inl ⟨l, rfl, ?_⟩⟩ <;> simp [he]
  | err e2 =>
    by_cases h4 : strContains (estr e2) "429" = true
    · refine ⟨?_, ?_, Or.inr ⟨e2, rfl, Or.inr ?_⟩⟩ <;> simp [he, h4]
    · refine ⟨?_, ?_, Or.inr ⟨e2, rfl, Or.inl ?_⟩⟩ <;> simp [he, h4]

/-- Helper for the `part_002` handler: whatever branch is taken, a second
thrown error surfaces either verbatim or as the fixed quota error. -/
theorem handle_result_err (env : Nat → FetchOutcome) (target : Nat)
    (e e2 : JsError) (h1 : env 1 = .err e2) :
    (handleFirstFailureV2 env target e).result = .error e2 ∨
    (handleFirstFailureV2 env target e).result = .error quotaError := by
  unfold handleFirstFailureV2
  split
  · exact Or.inr rfl
  · simp only [h1]
    split
    · exact Or.inr rfl
    · exact Or.inl rfl

/-- C1 counterexample: in the live ladder of `src/services/geminiService.ts`,
a first attempt rejecting with an error whose message contains "429" is
rethrown to the caller unchanged, not replaced by the quota-specific message;
and when such a message also contains the internal-error keyword the ladder
does issue further attempts. -/
theorem c1_counterexample :
    strContains "got 429" "429" = true ∧
    (searchBusinesses env429).attempts = [40] ∧
    (searchBusinesses env429).result = .error { message := "got 429" } ∧
    ({ message := "got 429" } : JsError).message ≠ quotaError.message ∧
    strContains "Internal error after 429" "429" = true ∧
    (searchBusinesses envInternal429).attempts = [40, 20, 10] := by
  refine ⟨rfl, rfl, rfl, ?_, rfl, rfl⟩
  decide

/-- C1 (amended): in the `part_002` variant of `searchBusinesses`, a first
attempt rejecting with an error whose message contains "429" short-circuits
the ladder: no second fetch is issued, no delay is awaited, and the caller
receives the fixed quota message instead of the raw error. -/
theorem c1_quota_short_circuit_v2 (env : Nat → FetchOutcome) (target : Nat)
    (e : JsError) (h0 : env 0 = .err e)
    (h429 : strContains e.message "429" = true) :
    (searchBusinessesV2 env target).attempts = [target] ∧
    (searchBusinessesV2 env target).waits = [] ∧
    (searchBusinessesV2 env target).result = .error quotaError := by
  have h1 : strContains (estr e) "429" = true :=
    strContains_append_left "Error: " e.message "429" h429
  have hq : isQuotaErrorV2 e = true := by
    simp [isQuotaErrorV2, h1]
  refine ⟨?_, ?_, ?_⟩ <;>
    simp [searchBusinessesV2, h0, handleFirstFailureV2, hq]

/-- Witness for C1 (amended): a rate-limited first attempt at target 20. -/
theorem c1_quota_short_circuit_v2_witness :
    (searchBusinessesV2 envRateLimited 20).attempts = [20] ∧
    (searchBusinessesV2 envRateLimited 20).waits = [] ∧
    (searchBusinessesV2 envRateLimited 20).result = .error quotaError :=
  c1_quota_short_circuit_v2 envRateLimited 20
    { message := "429 rate limited" } rfl rfl

/-- C2 counterexample: in the live ladder of `src/services/geminiService.ts`,
a first attempt resolving with zero records is returned to the caller
immediately: no delay is awaited and no retry is issued. -/
theorem c2_counterexample :
    (searchBusinesses envEmptyConst).attempts = [40] ∧
    (searchBusinesses envEmptyConst).waits = [] ∧
    (searchBusinesses envEmptyConst).result = .ok [] :=
  ⟨rfl, rfl, rfl⟩

/-- C2 (amended): in the `part_002` variant, a first attempt resolving with
zero records awaits the fixed delay and issues exactly one retry at batch size
`max 5 (target / 2)` — half the target, floored at 5 — and the invocation's
result is that retry's records, or its failure (remapped to the fixed quota
error when the second failure mentions 429). -/
theorem c2_empty_first_retry_v2 (env : Nat → FetchOutcome) (target : Nat)
    (h0 : env 0 = .ok []) :
    (searchBusinessesV2 env target).attempts
        = [target, max 5 (target / 2)] ∧
    (searchBusinessesV2 env target).waits = [WAIT_TIME_MS] ∧
    (max 5 (target / 2) ≤ target / 2 ∨ max 5 (target / 2) = 5) ∧
    ((∃ l, env 1 = .ok l ∧
        (searchBusinessesV2 env target).result = .ok l) ∨
     (∃ e2, env 1 = .err e2 ∧
        ((searchBusinessesV2 env target).result = .error e2 ∨
         (searchBusinessesV2 env target).result = .error quotaError))) := by
  have hnq : isQuotaErrorV2 { message := "No results found in first attempt" }
      = false := by decide
  have hmain : searchBusinessesV2 env target
      = handleFirstFailureV2 env target
          { message := "No results found in first attempt" } := by
    simp [searchBusinessesV2, h0]
  have h := handle_not_quota env target
    { message := "No results found in first attempt" } hnq
  rw [hmain]
  refine ⟨h.1, h.2.1, ?_, h.2.2⟩
  rcases Nat.le_total 5 (target / 2) with h5 | h5
  · exact Or.inl (le_of_eq (Nat.max_eq_right h5))
  · exact Or.inr (Nat.max_eq_left h5)

/-- Witness for C2 (amended): an empty first attempt at target 20 retries at
batch size 10 and returns the retry's single record. -/
theorem c2_empty_first_retry_v2_witness :
    (searchBusinessesV2 envEmptyThenOne 20).attempts
        = [20, max 5 (20 / 2)] ∧
    (searchBusinessesV2 envEmptyThenOne 20).waits = [WAIT_TIME_MS] ∧
    (max 5 (20 / 2) ≤ 20 / 2 ∨ max 5 (20 / 2) = 5) ∧
    ((∃ l, envEmptyThenOne 1 = .ok l ∧
        (searchBusinessesV2 envEmptyThenOne 20).result = .ok l) ∨
     (∃ e2, envEmptyThenOne 1 = .err e2 ∧
        ((searchBusinessesV2 envEmptyThenOne 20).result = .error e2 ∨
         (searchBusinessesV2 envEmptyThenOne 20).result
            = .error quotaError))) :=
  c2_empty_first_retry_v2 envEmptyThenOne 20 rfl

/-- C3 counterexample: the live ladder of `src/services/geminiService.ts`
issues a third attempt: three consecutive internal-error rejections produce
the attempt ladder 40, 20, 10 before the failure propagates. -/
theorem c3_counterexample :
    (searchBusinesses envInternalConst).attempts = [40, 20, 10] ∧
    (searchBusinesses envInternalConst).attempts.length = 3 ∧
    (searchBusinesses envInternalConst).result =
      .error { status := some 500, message := "Internal error" } :=
  ⟨rfl, rfl, rfl⟩

/-- C3 (amended): the `part_002` variant issues at most one additional
attempt — never more than two fetches per invocation — and when both attempts
reject, the caller receives the second error (verbatim, or remapped to the
fixed quota error). -/
theorem c3_at_most_two_attempts_v2 (env : Nat → FetchOutcome) (target : Nat) :
    (searchBusinessesV2 env target).attempts.length ≤ 2 ∧
    (∀ e e2, env 0 = .err e → env 1 = .err e2 →
      ((searchBusinessesV2 env target).result = .error e2 ∨
       (searchBusinessesV2 env target).result = .error quotaError)) := by
  constructor
  · cases h0 : env 0 with
    | ok leads =>
      by_cases hl : leads.length > 0
      · simp [searchBusinessesV2, h0, hl]
      · have := handle_attempts_len env target
          { message := "No results found in first attempt" }
        simpa [searchBusinessesV2, h0, hl] using this
    | err e =>
      have := handle_attempts_len env target e
      simpa [searchBusinessesV2, h0] using this
  · intro e e2 h0 h1
    have := handle_result_err env target e e2 h1
    simpa [searchBusinessesV2, h0] using this

/-- Witness for C3 (amended): an unclassified error on both attempts yields
at most two attempts and surfaces the second error. -/
theorem c3_at_most_two_attempts_v2_witness :
    (searchBusinessesV2 envBoom 20).attempts.length ≤ 2 ∧
    ((searchBusinessesV2 envBoom 20).result = .error { message := "boom" } ∨
     (searchBusinessesV2 envBoom 20).result = .error quotaError) :=
  ⟨(c3_at_most_two_attempts_v2 envBoom 20).1,
   (c3_at_most_two_attempts_v2 envBoom 20).2
     { message := "boom" } { message := "boom" } rfl rfl⟩

end Leeds
